import Mathlib

/-!
Shallow embedding of the checkinmate geoplace service.

Source files embedded here:
- src/server/Controller/Geoplace.ts (GeoPlaceController: getPlaces, getCombinedData,
  isValidPlace, removeDuplicates)
- src/server/Service/OverpassService.ts (queryPlaces, isValidCoordinate, isCacheValid,
  parseResponse and its filter/category logic)
- src/server/schemas/validation.ts (calculateDistance, the Haversine formula)

Modelling conventions:
- JS numbers that flow through the data pipeline are modelled as rationals;
  the trigonometric distance calculator is modelled over the reals.
- A possibly-absent JS field is an Option.  `coords : Option (List Rat)` stands for
  the nested `coordinates.coordinates` field: `none` models a missing `coordinates`
  object or a non-array inner field, `some l` models an array of numbers.
- Timestamps (`Date.getTime()` milliseconds) are integers.
- Asynchronous collaborator results (the MongoDB query result, the Overpass network
  response) are passed to the embedded functions as explicit arguments; a Bool
  component of the result records whether the network / external adapter was used.
- `res.json(x)` payloads of the request handler are the `RespBody` inductive:
  `.arr` is a bare JSON array, `.pageObj` is the `{page, limit, results, total}` object
  (constructor fields in the source's key order).
-/

/-- Place record (src/types.ts `PlaceDocument`).  `source` is the provenance string
("mongodb" or "overpass"), `updatedAt` a millisecond timestamp, `distance` the
optional query-time distance annotation. -/
structure Place where
  name : String
  address : String
  coords : Option (List ℚ)
  category : String
  source : String
  updatedAt : ℤ
  distance : Option ℚ
deriving DecidableEq, Repr

/-- Geoplace.ts `isValidPlace`: `place && place.name && place.coordinates &&
Array.isArray(place.coordinates.coordinates) && place.coordinates.coordinates.length === 2`.
A falsy `place.name` is the empty string; the missing/non-array coordinate cases are the
`none` branch. -/
def isValidPlace (place : Place) : Bool :=
  !(decide (place.name = "")) &&
    match place.coords with
    | some cs => decide (cs.length = 2)
    | none => false

/-- Geoplace.ts `removeDuplicates` inner predicate (the closure passed to `findIndex`):
`p.name === place.name && p.coordinates && place.coordinates && Array.isArray(...) &&
p.coordinates.coordinates[0] === place.coordinates.coordinates[0] &&
p.coordinates.coordinates[1] === place.coordinates.coordinates[1]`.
JS indexing out of range yields `undefined` on both sides, modelled by `List.get?`
(two out-of-range sides compare equal, as `undefined === undefined` does). -/
def dupOf (place p : Place) : Bool :=
  decide (p.name = place.name) &&
    match p.coords, place.coords with
    | some pc, some plc =>
        decide (pc.get? 0 = plc.get? 0) && decide (pc.get? 1 = plc.get? 1)
    | _, _ => false

/-- Geoplace.ts `removeDuplicates` used as an `Array.prototype.filter` callback:
keep the element at index `i` iff `i === self.findIndex(p => dupOf current p)`.
`findIndex` returning `-1` never equals a real index, so the JS test is exactly
`findIdx? = some i`. -/
def removeDuplicates (l : List Place) : List Place :=
  (l.enum.filter fun ip => decide (l.findIdx? (dupOf ip.2) = some ip.1)).map Prod.snd

/-- The comparison order of Geoplace.ts `.sort((a, b) => (a.distance || 0) - (b.distance || 0))`:
a falsy (absent or zero) distance counts as 0. -/
def distLE (a b : Place) : Prop :=
  a.distance.getD 0 ≤ b.distance.getD 0

instance : DecidableRel distLE := fun a b =>
  inferInstanceAs (Decidable (a.distance.getD 0 ≤ b.distance.getD 0))

instance : IsTotal Place distLE :=
  ⟨fun a b => le_total (a.distance.getD 0) (b.distance.getD 0)⟩

instance : IsTrans Place distLE :=
  ⟨fun _ _ _ h1 h2 => le_trans h1 h2⟩

/-- Geoplace.ts `getCombinedData`: concatenate the MongoDB page with the processed
Overpass records (`overpassData` stands for the result of
`fetchAndProcessOverpassData`, an awaited external call), filter by `isValidPlace`,
apply the `removeDuplicates` index filter, sort ascending by `(distance || 0)`
(`.sort` modelled by a sort producing a sorted permutation), and `.slice(0, limit)`. -/
def getCombinedData (mongoData overpassData : List Place) (limit : ℕ) : List Place :=
  (List.insertionSort distLE
      (removeDuplicates ((mongoData ++ overpassData).filter isValidPlace))).take limit

/-- JSON payload handed to `res.json` by Geoplace.ts `getPlaces`: either a bare array
(the cache-hit branch caches and replays `PlaceDocument[]`), or the
`{page, limit, results, total}` object literal of the two miss branches. -/
inductive RespBody where
  | arr (places : List Place)
  | pageObj (page limit : ℕ) (results : List Place) (total : ℕ)
deriving DecidableEq, Repr

/-- Geoplace.ts `getPlaces` success paths.  `cacheVal` is `cache.get(cacheKey)`
(`cache.has` is its `isSome`), `mongoData` the awaited `getMongoDBData` result,
`overpassData` the processed external records the merge would use.  The Bool result
component is true iff the external adapter (`getCombinedData` →
`fetchAndProcessOverpassData`) was invoked.  The `cache.set` write-through on the
merge branch is a store effect with no bearing on the response and is not modelled. -/
def getPlaces (page limit : ℕ) (useCache : Bool) (cacheVal : Option (List Place))
    (mongoData overpassData : List Place) : RespBody × Bool :=
  if cacheVal.isSome && useCache then
    (.arr (cacheVal.getD []), false)
  else if mongoData.length < limit then
    let combinedData := getCombinedData mongoData overpassData limit
    (.pageObj page limit combinedData combinedData.length, true)
  else
    (.pageObj page limit mongoData mongoData.length, false)

/-- OverpassService.ts `RELEVANT_TAGS`. -/
def RELEVANT_TAGS : List String :=
  ["amenity", "tourism", "leisure", "historic", "shop", "road", "building",
   "man_made", "natural"]

/-- OverpassService.ts `LANDMARK_TAGS`. -/
def LANDMARK_TAGS : List String :=
  ["tourism=attraction", "historic=monument", "historic=memorial", "historic=building",
   "landmark=yes", "tower=yes", "building=tower", "natural=peak", "natural=volcano",
   "man_made=tower", "man_made=obelisk", "man_made=monument", "building=church",
   "building=cathedral"]

/-- OverpassService.ts `EXCLUDED_VALUES`. -/
def EXCLUDED_VALUES : List String :=
  ["bench", "waste_basket", "telephone", "parking", "parking_space"]

/-- OverpassService.ts `CACHE_DURATION = 24 * 60 * 60 * 1000` (24 hours in ms). -/
def CACHE_DURATION : ℤ := 24 * 60 * 60 * 1000

/-- An element of the Overpass response's `elements` array, restricted to the fields
OverpassService.ts reads: the tag map (absent when the element has no `tags`),
the node coordinates, and the way/relation `center` (modelled only when it carries
both coordinates; a `center` lacking one of them would feed NaN into the pipeline
and is outside this rational-number model). -/
structure OsmElement where
  tags : Option (List (String × String))
  lat : Option ℚ
  lon : Option ℚ
  center : Option (ℚ × ℚ)
deriving DecidableEq, Repr

/-- JS `element.tags?.[k]`: the tag value, if the tag map and the key are present. -/
def tagVal (e : OsmElement) (k : String) : Option String :=
  e.tags.bind fun ts => ts.lookup k

/-- JS truthiness of a possibly-absent number: `undefined` and `0` are falsy. -/
def truthyNum : Option ℚ → Bool
  | none => false
  | some x => !(decide (x = 0))

/-- JS truthiness of a possibly-absent string: `undefined` and `""` are falsy. -/
def truthyStr : Option String → Bool
  | none => false
  | some s => !(decide (s = ""))

/-- The element filter inside OverpassService.ts `parseResponse`:
`hasName && !isExcluded && hasCoordinates` with
`hasName = element.tags?.name`,
`isExcluded = EXCLUDED_VALUES.some(excluded => RELEVANT_TAGS.some(tag =>
element.tags?.[tag] === excluded) || element.tags?.[excluded] !== undefined)`,
`hasCoordinates = (element.lat && element.lon) || (element.center?.lat && element.center?.lon)`. -/
def keepElement (e : OsmElement) : Bool :=
  let hasName := truthyStr (tagVal e "name")
  let isExcluded := EXCLUDED_VALUES.any fun excluded =>
    RELEVANT_TAGS.any (fun tag => decide (tagVal e tag = some excluded)) ||
      (tagVal e excluded).isSome
  let hasCoordinates :=
    (truthyNum e.lat && truthyNum e.lon) ||
      (match e.center with
       | some c => !(decide (c.1 = 0)) && !(decide (c.2 = 0))
       | none => false)
  hasName && !isExcluded && hasCoordinates

/-- JS `const [key, value] = tag.split('=')` for the landmark tag literals. -/
def splitKV (tag : String) : String × String :=
  let parts := tag.splitOn "="
  ((parts.get? 0).getD "", (parts.get? 1).getD "")

/-- The category derivation inside OverpassService.ts `parseResponse`'s map step:
landmark tags first (value, or key when the value is "yes"), then the first truthy
relevant tag, then the `tourism` and `historic` special cases, else "other". -/
def elementCategory (e : OsmElement) : String :=
  let cat1 :=
    match LANDMARK_TAGS.findSome? (fun tag =>
        let kv := splitKV tag
        if decide (tagVal e kv.1 = some kv.2) then
          some (if decide (kv.2 = "yes") then kv.1 else kv.2)
        else none) with
    | some c => c
    | none => "other"
  let cat2 :=
    if decide (cat1 = "other") then
      match RELEVANT_TAGS.find? (fun tag => truthyStr (tagVal e tag)) with
      | some tag =>
          if decide (tagVal e tag = some "yes") then tag else (tagVal e tag).getD ""
      | none => cat1
    else cat1
  let cat3 :=
    if decide (cat2 = "other") && truthyStr (tagVal e "tourism") then
      if decide (tagVal e "tourism" = some "yes") then "tourism"
      else (tagVal e "tourism").getD ""
    else cat2
  if decide (cat3 = "other") && truthyStr (tagVal e "historic") then
    if decide (tagVal e "historic" = some "yes") then "historic"
    else (tagVal e "historic").getD ""
  else cat3

/-- The map step of OverpassService.ts `parseResponse`: build the place record,
taking the node coordinates when truthy and the `center` coordinates otherwise
(the filter guarantees the consulted values are present), the `addr:street` tag or
the "Unknown address" default, and `updatedAt = new Date()` (the `now` argument). -/
def elementToPlace (now : ℤ) (e : OsmElement) : Place :=
  let lat := if truthyNum e.lat then e.lat.getD 0 else (e.center.map Prod.fst).getD 0
  let lon := if truthyNum e.lon then e.lon.getD 0 else (e.center.map Prod.snd).getD 0
  { name := (tagVal e "name").getD ""
    address :=
      if truthyStr (tagVal e "addr:street") then (tagVal e "addr:street").getD ""
      else "Unknown address"
    coords := some [lon, lat]
    category := elementCategory e
    source := "overpass"
    updatedAt := now
    distance := none }

/-- OverpassService.ts `parseResponse`: `if (!data.elements) return []`, else filter
and map. (`elements = some []` is a present-but-empty array, which is truthy in JS
and flows through the pipeline to an empty result.) -/
def parseResponse (now : ℤ) (elements : Option (List OsmElement)) : List Place :=
  match elements with
  | none => []
  | some es => (es.filter keepElement).map (elementToPlace now)

/-- OverpassService.ts `isValidCoordinate`:
`lat >= -90 && lat <= 90 && lon >= -180 && lon <= 180 && radius > 0 && radius <= 10000`. -/
def isValidCoordinate (lat lon radius : ℚ) : Bool :=
  decide (-90 ≤ lat) && decide (lat ≤ 90) && decide (-180 ≤ lon) &&
    decide (lon ≤ 180) && decide (0 < radius) && decide (radius ≤ 10000)

/-- OverpassService.ts `isCacheValid`: false on an empty list, else every record's
`updatedAt` must be strictly newer than `now - CACHE_DURATION`. -/
def isCacheValid (now : ℤ) (places : List Place) : Bool :=
  if decide (places.length = 0) then false
  else places.all fun place => decide (now - CACHE_DURATION < place.updatedAt)

/-- Outcome of the `axios.post` call to the Overpass endpoint: `.failure` is a
rejected promise (network error, timeout, non-2xx status — anything that lands in
the service's catch block), `.success elements` is a resolved response whose body
carries the given `elements` field (`none`: the field is absent). -/
inductive NetOutcome where
  | failure (msg : String)
  | success (elements : Option (List OsmElement))
deriving DecidableEq, Repr

/-- The catch block of OverpassService.ts `queryPlaces`: re-read the store
(`getFromMongoDB`, which yields the same `cachedData` since nothing has been
written on the paths that reach the catch), return it when non-empty, else throw
the single aggregated error. -/
def catchFallback (cachedData : List Place) (msg : String) : Except String (List Place) :=
  if decide (cachedData.length > 0) then .ok cachedData
  else .error ("Failed to fetch data: " ++ msg)

/-- OverpassService.ts `queryPlaces`.  `cachedData` is the `getFromMongoDB` result
for the area (external-sourced records near the point), `net` the network outcome,
`now` the current time.  The Bool component records whether the network request was
issued.  The `storeInMongoDB` write-back swallows its own errors and does not affect
the returned value, so it is not modelled. -/
def queryPlaces (lat lon radius : ℚ) (cachedData : List Place) (net : NetOutcome)
    (now : ℤ) : Except String (List Place) × Bool :=
  if !(isValidCoordinate lat lon radius) then
    (catchFallback cachedData "Invalid coordinates or radius provided", false)
  else if isCacheValid now cachedData then
    (.ok cachedData, false)
  else
    match net with
    | .failure msg => (catchFallback cachedData msg, true)
    | .success elements => (.ok (parseResponse now elements), true)

/-- JS `Math.atan2 y x` over the reals (the standard definition, with
`atan2 0 0 = 0` as in IEEE/JS). -/
noncomputable def atan2 (y x : ℝ) : ℝ :=
  if 0 < x then Real.arctan (y / x)
  else if x < 0 then
    (if 0 ≤ y then Real.arctan (y / x) + Real.pi else Real.arctan (y / x) - Real.pi)
  else
    (if 0 < y then Real.pi / 2 else if y < 0 then -(Real.pi / 2) else 0)

/-- validation.ts `calculateDistance`: the Haversine great-circle distance in
meters, Earth radius 6371e3, degree inputs. -/
noncomputable def calculateDistance (lat1 lon1 lat2 lon2 : ℝ) : ℝ :=
  let R : ℝ := 6371e3
  let rad : ℝ := Real.pi / 180
  let phi1 := lat1 * rad
  let phi2 := lat2 * rad
  let dphi := (lat2 - lat1) * rad
  let dlam := (lon2 - lon1) * rad
  let a :=
    Real.sin (dphi / 2) * Real.sin (dphi / 2) +
      Real.cos phi1 * Real.cos phi2 * (Real.sin (dlam / 2) * Real.sin (dlam / 2))
  let c := 2 * atan2 (Real.sqrt a) (Real.sqrt (1 - a))
  R * c

/-- Discriminator: is the response payload the `{page, limit, results, total}` object? -/
def RespBody.isPageObj : RespBody → Bool
  | .pageObj _ _ _ _ => true
  | .arr _ => false

/-- The rational 0.00005 (= 1/20000), built directly so that kernel evaluation of
concrete merge runs never has to normalise a division. -/
def qSmall : ℚ := ⟨1, 20000, by decide, Nat.coprime_one_left _⟩

/-- The rational 0.0002 (= 1/5000), built directly for the same reason. -/
def qFar : ℚ := ⟨1, 5000, by decide, Nat.coprime_one_left _⟩

/-- Concrete record: a locally-stored cafe at the origin, distance 1. -/
def centralCafeLocal : Place :=
  ⟨"Central Cafe", "Local Street", some [0, 0], "cafe", "mongodb", 0, some 1⟩

/-- Concrete record: same name, longitude 0.00005 degrees away, distance 2. -/
def centralCafeNearby : Place :=
  ⟨"Central Cafe", "Ext Street", some [qSmall, 0], "cafe", "overpass", 0, some 2⟩

/-- Concrete record: same name, longitude 0.0002 degrees away, distance 2. -/
def centralCafeFarther : Place :=
  ⟨"Central Cafe", "Ext Street", some [qFar, 0], "cafe", "overpass", 0, some 2⟩

/-- Concrete record: same name and exactly equal coordinates, distance 2. -/
def centralCafeExact : Place :=
  ⟨"Central Cafe", "Ext Street", some [0, 0], "cafe", "overpass", 0, some 2⟩

/-- Concrete record with an empty (falsy) name. -/
def pNoName : Place :=
  ⟨"", "Somewhere", some [0, 0], "cafe", "mongodb", 0, some 3⟩

/-- Concrete external-sourced record whose `updatedAt` (time 0) is stale relative to
the times used below. -/
def staleRecord : Place :=
  ⟨"Stale Tower", "Old Street", some [0, 0], "tower", "overpass", 0, none⟩

/-- Concrete external-sourced record fresh at time 5. -/
def freshRecord : Place :=
  ⟨"Fresh Tower", "New Street", some [0, 0], "tower", "overpass", 5, none⟩

/-! Supporting lemmas about the merge pipeline. -/

/-- The duplicate test of `removeDuplicates` is symmetric in its two records. -/
theorem dupOf_symm (a b : Place) : dupOf a b = dupOf b a := by
  unfold dupOf
  rcases a with ⟨an, _, ac, _, _, _, _⟩
  rcases b with ⟨bn, _, bc, _, _, _, _⟩
  rcases ac with _ | la <;> rcases bc with _ | lb <;>
    simp [Bool.eq_iff_iff, eq_comm, and_comm]

/-- Indices in `List.enum` are strictly increasing along the list. -/
theorem pairwise_fst_lt_enum {α : Type} (l : List α) :
    l.enum.Pairwise fun a b => a.1 < b.1 := by
  rw [List.pairwise_iff_getElem]
  intro i j hi hj hij
  rw [List.getElem_enum, List.getElem_enum]
  exact hij

/-- `removeDuplicates` only keeps records of its input list. -/
theorem mem_removeDuplicates {x : Place} {l : List Place}
    (h : x ∈ removeDuplicates l) : x ∈ l := by
  unfold removeDuplicates at h
  rcases List.mem_map.1 h with ⟨⟨i, y⟩, hmem, rfl⟩
  exact List.getElem?_mem (List.mem_enum_iff_getElem?.1 (List.mem_filter.1 hmem).1)

/-- No two entries of the `removeDuplicates` output are duplicates of each other in
the exact name-and-coordinates sense of the source predicate: the element kept at
the larger original index saw the other one at a strictly earlier position of its
`findIndex` scan. -/
theorem pairwise_removeDuplicates (l : List Place) :
    (removeDuplicates l).Pairwise fun a b => dupOf a b = false := by
  unfold removeDuplicates
  rw [List.pairwise_map]
  have base := (pairwise_fst_lt_enum l).filter
    (fun ip => decide (l.findIdx? (dupOf ip.2) = some ip.1))
  refine base.imp_of_mem ?_
  intro a b ha hb hlt
  have hqb := (List.mem_filter.1 hb).2
  rw [decide_eq_true_eq, List.findIdx?_eq_some_iff_getElem] at hqb
  rcases hqb with ⟨hblen, _, hprior⟩
  rcases List.getElem?_eq_some_iff.1
    (List.mem_enum_iff_getElem?.1 (List.mem_filter.1 ha).1) with ⟨halen, hget⟩
  have hfalse := hprior a.1 hlt
  rw [hget] at hfalse
  rw [dupOf_symm]
  simpa using hfalse

/-- Every record of the merge output comes from the validity-filtered concatenation
of the two input sequences. -/
theorem mem_getCombinedData {p : Place} {m o : List Place} {k : ℕ}
    (h : p ∈ getCombinedData m o k) : p ∈ (m ++ o).filter isValidPlace := by
  unfold getCombinedData at h
  exact mem_removeDuplicates ((List.perm_insertionSort distLE
    (removeDuplicates ((m ++ o).filter isValidPlace))).mem_iff.1 (List.take_subset _ _ h))

/-- Every record of the merge output passes `isValidPlace`. -/
theorem valid_of_mem_getCombinedData {p : Place} {m o : List Place} {k : ℕ}
    (h : p ∈ getCombinedData m o k) : isValidPlace p = true :=
  (List.mem_filter.1 (mem_getCombinedData h)).2

/-- The merge output is sorted with respect to the source's comparator order. -/
theorem sorted_getCombinedData (m o : List Place) (k : ℕ) :
    (getCombinedData m o k).Sorted distLE := by
  unfold getCombinedData
  exact List.Pairwise.sublist (List.take_sublist _ _) (List.sorted_insertionSort distLE _)

/-- The no-exact-duplicates property survives the sort (a permutation) and the
truncation (a sublist) of the merge pipeline. -/
theorem pairwise_getCombinedData (m o : List Place) (k : ℕ) :
    (getCombinedData m o k).Pairwise fun a b => dupOf a b = false := by
  unfold getCombinedData
  refine List.Pairwise.sublist (List.take_sublist _ _) ?_
  refine ((List.perm_insertionSort distLE _).pairwise_iff ?_).2
    (pairwise_removeDuplicates _)
  intro x y hxy
  rw [dupOf_symm]
  exact hxy

/-- Unfolding of `isCacheValid`: valid caches are exactly the non-empty ones whose
every record is strictly newer than the freshness cutoff. -/
theorem isCacheValid_iff (now : ℤ) (l : List Place) :
    isCacheValid now l = true ↔ l ≠ [] ∧ ∀ p ∈ l, now - CACHE_DURATION < p.updatedAt := by
  unfold isCacheValid
  rcases l with _ | ⟨x, xs⟩ <;> simp [List.all_eq_true]

/-- Claim C1, counterexample: `removeDuplicates` compares coordinates with strict
equality, not with a 0.0001-degree tolerance.  Two records with identical name whose
longitudes differ by exactly 0.00005 degrees (latitudes equal) BOTH appear in the
merged output, refuting "at most one of the pair appears". -/
theorem dedup_tolerance_counterexample :
    centralCafeLocal.name = centralCafeNearby.name ∧
    centralCafeLocal.coords = some [0, 0] ∧
    centralCafeNearby.coords = some [qSmall, 0] ∧
    qSmall = 1 / 20000 ∧
    getCombinedData [centralCafeLocal] [centralCafeNearby] 10
      = [centralCafeLocal, centralCafeNearby] ∧
    centralCafeLocal ≠ centralCafeNearby := by
  refine ⟨rfl, rfl, rfl, ?_, rfl, by decide⟩
  rw [qSmall, Rat.mk'_eq_divInt, Rat.divInt_eq_div]
  norm_num

/-- Claim C1, amended: in the merge engine's deduplication, two records count as
duplicates exactly when their names match and their coordinates are exactly equal
on both axes.  No two entries of any merged output are exact duplicates of each
other; a same-name pair 0.00005 degrees apart is kept whole, as is a pair 0.0002
degrees apart, while a same-name pair at identical coordinates is reduced to its
first occurrence. -/
theorem dedup_exact_equality_amended :
    (∀ (mongoData overpassData : List Place) (limit : ℕ),
        (getCombinedData mongoData overpassData limit).Pairwise
          fun a b => dupOf a b = false) ∧
    getCombinedData [centralCafeLocal] [centralCafeNearby] 10
      = [centralCafeLocal, centralCafeNearby] ∧
    getCombinedData [centralCafeLocal] [centralCafeFarther] 10
      = [centralCafeLocal, centralCafeFarther] ∧
    getCombinedData [centralCafeLocal] [centralCafeExact] 10 = [centralCafeLocal] :=
  ⟨pairwise_getCombinedData, rfl, rfl, rfl⟩

/-- Claim C2: for all input sequences in which every record carries a distance and
every limit, the merge output is sorted ascending by distance (and still carries a
distance on every record, so adjacent `getD`-comparisons compare the actual
distances). -/
theorem merge_sorted_by_distance (mongoData overpassData : List Place) (limit : ℕ)
    (h : ∀ p ∈ mongoData ++ overpassData, p.distance.isSome = true) :
    (∀ p ∈ getCombinedData mongoData overpassData limit, p.distance.isSome = true) ∧
    (getCombinedData mongoData overpassData limit).Pairwise
      fun a b => a.distance.getD 0 ≤ b.distance.getD 0 := by
  constructor
  · intro p hp
    exact h p (List.mem_of_mem_filter (mem_getCombinedData hp))
  · exact (sorted_getCombinedData mongoData overpassData limit).imp fun hab => hab

/-- Claim C2, witness. -/
theorem merge_sorted_by_distance_witness :
    (∀ p ∈ [centralCafeLocal] ++ [centralCafeNearby], p.distance.isSome = true) ∧
    ((∀ p ∈ getCombinedData [centralCafeLocal] [centralCafeNearby] 10,
        p.distance.isSome = true) ∧
      (getCombinedData [centralCafeLocal] [centralCafeNearby] 10).Pairwise
        fun a b => a.distance.getD 0 ≤ b.distance.getD 0) :=
  ⟨by decide, merge_sorted_by_distance [centralCafeLocal] [centralCafeNearby] 10 (by decide)⟩

/-- Claim C8: every record of the merge output has a non-empty name and a
coordinate array of exactly two numbers, and every input record failing the
validity test is excluded from the output. -/
theorem merge_output_valid (mongoData overpassData : List Place) (limit : ℕ) :
    (∀ p ∈ getCombinedData mongoData overpassData limit,
        p.name ≠ "" ∧ ∃ a b : ℚ, p.coords = some [a, b]) ∧
    (∀ p ∈ mongoData ++ overpassData, isValidPlace p = false →
        p ∉ getCombinedData mongoData overpassData limit) := by
  constructor
  · intro p hp
    have hv := valid_of_mem_getCombinedData hp
    unfold isValidPlace at hv
    rcases hco : p.coords with _ | cs
    · rw [hco] at hv
      simp at hv
    · rw [hco] at hv
      simp only [Bool.and_eq_true, Bool.not_eq_true', decide_eq_false_iff_not,
        decide_eq_true_eq] at hv
      rcases List.length_eq_two.1 hv.2 with ⟨a, b, rfl⟩
      exact ⟨hv.1, a, b, rfl⟩
  · intro p _ hbad hmem
    rw [valid_of_mem_getCombinedData hmem] at hbad
    cases hbad

/-- Claim C8, witness. -/
theorem merge_output_valid_witness :
    (centralCafeLocal.name ≠ "" ∧ ∃ a b : ℚ, centralCafeLocal.coords = some [a, b]) ∧
    pNoName ∉ getCombinedData [centralCafeLocal, pNoName] [] 10 :=
  ⟨(merge_output_valid [centralCafeLocal, pNoName] [] 10).1 centralCafeLocal (by decide),
   (merge_output_valid [centralCafeLocal, pNoName] [] 10).2 pNoName (by decide) (by decide)⟩

/-- Claim C3, counterexample: on a cache hit the handler replays the cached bare
array of records (`res.json(cache.get(key))`), not a `{page, limit, total, results}`
object, so not every successful response has that shape. -/
theorem cache_hit_shape_counterexample :
    getPlaces 1 10 true (some [centralCafeLocal]) [] []
      = (.arr [centralCafeLocal], false) ∧
    (RespBody.arr [centralCafeLocal]).isPageObj = false :=
  ⟨rfl, rfl⟩

/-- Claim C3, amended: every successful response NOT served from the result cache
is a `{page, limit, total, results}` object; a cache-hit response is the bare
cached array instead. -/
theorem response_shape_amended (page limit : ℕ) (useCache : Bool)
    (cacheVal : Option (List Place)) (mongoData overpassData : List Place)
    (h : cacheVal = none ∨ useCache = false) :
    ∃ results total,
      (getPlaces page limit useCache cacheVal mongoData overpassData).1
        = RespBody.pageObj page limit results total := by
  have hc : (cacheVal.isSome && useCache) = false := by
    rcases h with h | h <;> simp [h]
  by_cases hm : mongoData.length < limit
  · exact ⟨getCombinedData mongoData overpassData limit,
      (getCombinedData mongoData overpassData limit).length, by simp [getPlaces, hc, hm]⟩
  · exact ⟨mongoData, mongoData.length, by simp [getPlaces, hc, hm]⟩

/-- Claim C3, amended, witness. -/
theorem response_shape_amended_witness :
    ((none : Option (List Place)) = none ∨ true = false) ∧
    ∃ results total,
      (getPlaces 1 10 true none [centralCafeLocal] []).1
        = RespBody.pageObj 1 10 results total :=
  ⟨Or.inl rfl, response_shape_amended 1 10 true none [centralCafeLocal] [] (Or.inl rfl)⟩

/-- Claim C7: when the handler reaches the local-store query (no cache hit) and the
store returns at least `limit` records, the external adapter is never invoked and
the response is the local-store page unchanged. -/
theorem local_enough_skips_external (page limit : ℕ) (useCache : Bool)
    (cacheVal : Option (List Place)) (mongoData overpassData : List Place)
    (h1 : cacheVal = none ∨ useCache = false) (h2 : limit ≤ mongoData.length) :
    getPlaces page limit useCache cacheVal mongoData overpassData
      = (RespBody.pageObj page limit mongoData mongoData.length, false) := by
  have hc : (cacheVal.isSome && useCache) = false := by
    rcases h1 with h | h <;> simp [h]
  simp [getPlaces, hc, Nat.not_lt.2 h2]

/-- Claim C7, witness. -/
theorem local_enough_skips_external_witness :
    (((none : Option (List Place)) = none ∨ true = false) ∧ 1 ≤ [centralCafeLocal].length) ∧
    getPlaces 1 1 true none [centralCafeLocal] [centralCafeNearby]
      = (RespBody.pageObj 1 1 [centralCafeLocal] [centralCafeLocal].length, false) :=
  ⟨⟨Or.inl rfl, by decide⟩,
   local_enough_skips_external 1 1 true none [centralCafeLocal] [centralCafeNearby]
     (Or.inl rfl) (by decide)⟩

/-- Claim C10: whenever a success path of the handler responds with the
`{page, limit, results, total}` object, the `total` field is the length of that
same response's `results` array. -/
theorem total_equals_results_length (page limit : ℕ) (useCache : Bool)
    (cacheVal : Option (List Place)) (mongoData overpassData : List Place)
    (pg lim : ℕ) (results : List Place) (total : ℕ)
    (h : (getPlaces page limit useCache cacheVal mongoData overpassData).1
        = RespBody.pageObj pg lim results total) :
    total = results.length := by
  by_cases hc : (cacheVal.isSome && useCache) = true
  · simp [getPlaces, hc] at h
  · by_cases hm : mongoData.length < limit
    · simp only [getPlaces, Bool.not_eq_true] at hc
      simp [getPlaces, hc, hm, RespBody.pageObj.injEq] at h
      rcases h with ⟨_, _, hres, htot⟩
      rw [← htot, ← hres]
    · simp only [Bool.not_eq_true] at hc
      simp [getPlaces, hc, hm, RespBody.pageObj.injEq] at h
      rcases h with ⟨_, _, hres, htot⟩
      rw [← htot, ← hres]

/-- Claim C10, witness. -/
theorem total_equals_results_length_witness :
    (getPlaces 1 1 false none [centralCafeLocal] []).1
        = RespBody.pageObj 1 1 [centralCafeLocal] 1 ∧
    (1 : ℕ) = [centralCafeLocal].length :=
  ⟨rfl, total_equals_results_length 1 1 false none [centralCafeLocal] [] 1 1
    [centralCafeLocal] 1 rfl⟩

/-- Claim C4, counterexample: with an out-of-range latitude (91) the adapter's own
thrown error is caught by its catch block, which falls back to the local store; when
the store holds records for the area the call RETURNS them instead of rejecting (the
network is indeed never consulted). -/
theorem invalid_input_counterexample :
    isValidCoordinate 91 0 1000 = false ∧
    queryPlaces 91 0 1000 [staleRecord] (.failure "net down") 0
      = (.ok [staleRecord], false) :=
  ⟨rfl, rfl⟩

/-- Claim C4, amended: on out-of-range latitude, longitude or radius, no network
request is issued and the call rejects with the aggregated invalid-input error if
and only if the local store holds nothing for the area; otherwise the store's
records are returned. -/
theorem invalid_input_no_network_amended (lat lon radius : ℚ) (cachedData : List Place)
    (net : NetOutcome) (now : ℤ) (h : isValidCoordinate lat lon radius = false) :
    (queryPlaces lat lon radius cachedData net now).2 = false ∧
    (cachedData = [] →
      (queryPlaces lat lon radius cachedData net now).1
        = .error "Failed to fetch data: Invalid coordinates or radius provided") ∧
    (cachedData ≠ [] →
      (queryPlaces lat lon radius cachedData net now).1 = .ok cachedData) := by
  refine ⟨by simp [queryPlaces, h], ?_, ?_⟩
  · intro he
    subst he
    simp [queryPlaces, h, catchFallback]
  · intro hne
    have hlen : 0 < cachedData.length := List.length_pos.2 hne
    simp [queryPlaces, h, catchFallback, hlen]

/-- Claim C4, amended, witness. -/
theorem invalid_input_no_network_amended_witness :
    isValidCoordinate 91 0 1000 = false ∧
    ((queryPlaces 91 0 1000 [staleRecord] (.failure "net down") 0).2 = false ∧
      ([staleRecord] = ([] : List Place) →
        (queryPlaces 91 0 1000 [staleRecord] (.failure "net down") 0).1
          = .error "Failed to fetch data: Invalid coordinates or radius provided") ∧
      ([staleRecord] ≠ ([] : List Place) →
        (queryPlaces 91 0 1000 [staleRecord] (.failure "net down") 0).1
          = .ok [staleRecord])) :=
  ⟨rfl, invalid_input_no_network_amended 91 0 1000 [staleRecord] (.failure "net down") 0 rfl⟩

/-- Claim C5, counterexample: a resolved response with no `elements` field is a
malformed service response, yet the adapter returns the empty parse result rather
than falling back to the (non-empty) local store, and does not throw. -/
theorem malformed_response_counterexample :
    isValidCoordinate 0 0 1000 = true ∧
    isCacheValid (2 * CACHE_DURATION) [staleRecord] = false ∧
    queryPlaces 0 0 1000 [staleRecord] (.success none) (2 * CACHE_DURATION)
      = (.ok [], true) :=
  ⟨rfl, rfl, rfl⟩

/-- Claim C5, amended: when the network request itself fails (rejected promise:
network error, timeout, error status), the adapter returns the local store's
records — however stale — when that set is non-empty, and throws the single
aggregated error exactly when the store holds nothing; but a RESOLVED response
without an `elements` array yields the empty list with no store fallback. -/
theorem network_failure_fallback_amended (lat lon radius : ℚ) (cachedData : List Place)
    (msg : String) (now : ℤ) (h1 : isValidCoordinate lat lon radius = true)
    (h2 : isCacheValid now cachedData = false) :
    ((queryPlaces lat lon radius cachedData (.failure msg) now).2 = true ∧
      (cachedData ≠ [] →
        (queryPlaces lat lon radius cachedData (.failure msg) now).1 = .ok cachedData) ∧
      (cachedData = [] →
        (queryPlaces lat lon radius cachedData (.failure msg) now).1
          = .error ("Failed to fetch data: " ++ msg))) ∧
    (∀ stale : List Place, isCacheValid now stale = false →
      queryPlaces lat lon radius stale (.success none) now = (.ok [], true)) := by
  refine ⟨⟨by simp [queryPlaces, h1, h2], ?_, ?_⟩, ?_⟩
  · intro hne
    have hlen : 0 < cachedData.length := List.length_pos.2 hne
    simp [queryPlaces, h1, h2, catchFallback, hlen]
  · intro he
    subst he
    simp [queryPlaces, h1, h2, catchFallback]
  · intro stale hstale
    simp [queryPlaces, h1, hstale, parseResponse]

/-- Claim C5, amended, witness. -/
theorem network_failure_fallback_amended_witness :
    (isValidCoordinate 0 0 1000 = true ∧
      isCacheValid (2 * CACHE_DURATION) [staleRecord] = false) ∧
    (((queryPlaces 0 0 1000 [staleRecord] (.failure "timeout") (2 * CACHE_DURATION)).2
        = true ∧
      ([staleRecord] ≠ ([] : List Place) →
        (queryPlaces 0 0 1000 [staleRecord] (.failure "timeout") (2 * CACHE_DURATION)).1
          = .ok [staleRecord]) ∧
      ([staleRecord] = ([] : List Place) →
        (queryPlaces 0 0 1000 [staleRecord] (.failure "timeout") (2 * CACHE_DURATION)).1
          = .error ("Failed to fetch data: " ++ "timeout"))) ∧
    (∀ stale : List Place, isCacheValid (2 * CACHE_DURATION) stale = false →
      queryPlaces 0 0 1000 stale (.success none) (2 * CACHE_DURATION) = (.ok [], true))) :=
  ⟨⟨rfl, rfl⟩, network_failure_fallback_amended 0 0 1000 [staleRecord] "timeout"
    (2 * CACHE_DURATION) rfl rfl⟩

/-- Claim C6: with valid inputs, the adapter returns the store's cached records
without a network call exactly when that set is non-empty and every record is
strictly newer than the 24-hour cutoff; in particular an empty cached set always
leads to a network call. -/
theorem cached_return_iff_fresh (lat lon radius : ℚ) (cachedData : List Place)
    (net : NetOutcome) (now : ℤ) (h : isValidCoordinate lat lon radius = true) :
    (((queryPlaces lat lon radius cachedData net now).2 = false ∧
        (queryPlaces lat lon radius cachedData net now).1 = .ok cachedData) ↔
      (cachedData ≠ [] ∧ ∀ p ∈ cachedData, now - CACHE_DURATION < p.updatedAt)) ∧
    (cachedData = [] → (queryPlaces lat lon radius cachedData net now).2 = true) := by
  constructor
  · by_cases hv : isCacheValid now cachedData
    · simp only [queryPlaces, h, Bool.not_true, Bool.false_eq_true, if_false, hv, if_true]
      simpa using (isCacheValid_iff now cachedData).1 hv
    · rw [Bool.not_eq_true] at hv
      have hnot := (isCacheValid_iff now cachedData).not.1 (by simp [hv])
      cases net with
      | failure msg =>
          simp only [queryPlaces, h, Bool.not_true, Bool.false_eq_true, if_false, hv]
          simpa using hnot
      | success elements =>
          simp only [queryPlaces, h, Bool.not_true, Bool.false_eq_true, if_false, hv]
          simpa using hnot
  · intro he
    subst he
    cases net <;> simp [queryPlaces, h, isCacheValid]

/-- Claim C6, witness. -/
theorem cached_return_iff_fresh_witness :
    isValidCoordinate 0 0 1000 = true ∧
    ((((queryPlaces 0 0 1000 [freshRecord] (.failure "net down") 5).2 = false ∧
        (queryPlaces 0 0 1000 [freshRecord] (.failure "net down") 5).1
          = .ok [freshRecord]) ↔
      ([freshRecord] ≠ ([] : List Place) ∧
        ∀ p ∈ [freshRecord], 5 - CACHE_DURATION < p.updatedAt)) ∧
      ([freshRecord] = ([] : List Place) →
        (queryPlaces 0 0 1000 [freshRecord] (.failure "net down") 5).2 = true)) :=
  ⟨rfl, cached_return_iff_fresh 0 0 1000 [freshRecord] (.failure "net down") 5 rfl⟩

/-- Claim C9: the Haversine distance calculator is symmetric in its two points, and
evaluates to 0 on coincident points. -/
theorem distance_symm_and_zero :
    (∀ lat1 lon1 lat2 lon2 : ℝ,
        calculateDistance lat1 lon1 lat2 lon2 = calculateDistance lat2 lon2 lat1 lon1) ∧
    (∀ lat lon : ℝ, calculateDistance lat lon lat lon = 0) := by
  constructor
  · intro lat1 lon1 lat2 lon2
    simp only [calculateDistance]
    have key : ∀ x y : ℝ, Real.sin ((x - y) * (Real.pi / 180) / 2) *
        Real.sin ((x - y) * (Real.pi / 180) / 2) =
        Real.sin ((y - x) * (Real.pi / 180) / 2) *
          Real.sin ((y - x) * (Real.pi / 180) / 2) := by
      intro x y
      rw [show (x - y) * (Real.pi / 180) / 2 = -((y - x) * (Real.pi / 180) / 2) by ring,
        Real.sin_neg]
      ring
    rw [key lat1 lat2, key lon1 lon2,
      mul_comm (Real.cos (lat1 * (Real.pi / 180))) (Real.cos (lat2 * (Real.pi / 180)))]
  · intro lat lon
    unfold calculateDistance
    simp only [sub_self, zero_mul, zero_div, Real.sin_zero, mul_zero, add_zero, zero_add,
      Real.sqrt_zero, sub_zero, Real.sqrt_one]
    simp [atan2, Real.arctan_zero]
